import Mathlib

/-!
Verification of `analise.py`: a script that fetches the CDI interest rate
from the BCB public API, synthesizes jittered samples into a CSV series
file, and renders a line chart.

Shallow embedding conventions:
* Python floats are modelled as rationals (ℚ).
* The HTTP interaction of `requests.get` / `raise_for_status` is modelled
  as an input `FetchOutcome`: either the request raised (network failure)
  or a response with a status code and a body arrived.
* `json.loads` on the response text is modelled by `HttpBody`: the text is
  either not valid JSON (`malformed`, on which `json.loads` raises
  `JSONDecodeError`) or decodes to a `Json` value.
* Python exceptions are modelled by the error side of `Except PyExc`.
* A CSV file is modelled as `Option (List (List Char))`: `none` when the
  file does not exist, otherwise its list of lines (each line's trailing
  newline is implicit in the representation).
-/

namespace Analise

/-- Python exception classes relevant to the script. -/
inductive PyExc where
  | connectionError
  | jsonDecodeError
  | indexError
  | keyError
  | typeError
  | valueError
  | fileNotFoundError
deriving DecidableEq

/-- A decoded JSON value, as produced by `json.loads`. -/
inductive Json where
  | null
  | boolean (b : Bool)
  | num (q : ℚ)
  | str (s : String)
  | arr (elems : List Json)
  | obj (fields : List (String × Json))

/-- The text of an HTTP response body, as seen by `json.loads`:
either text that is not valid JSON, or a decoded JSON value. -/
inductive HttpBody where
  | malformed
  | jsonOf (j : Json)

/-- Outcome of `requests.get(url)`: the call either raises (network
unreachable and similar failures) or returns a response carrying a
status code and a body. -/
inductive FetchOutcome where
  | failure
  | response (status : Nat) (body : HttpBody)

/-- The numeric value of a decimal digit character, `none` otherwise. -/
def digitVal (c : Char) : Option Nat :=
  if 48 ≤ c.toNat ∧ c.toNat ≤ 57 then some (c.toNat - 48) else none

/-- Reads a run of decimal digit characters as a natural number;
`none` if any character is not a digit (empty list reads as 0). -/
def digitsToNat (cs : List Char) : Option Nat :=
  cs.foldl
    (fun acc c =>
      match acc, digitVal c with
      | some a, some d => some (a * 10 + d)
      | _, _ => none)
    (some 0)

/-- Models Python `float(s)` on simple decimal literals: an optional
sign, an integer part and an optional fractional part separated by one
`.`, with at least one digit present. Anything else raises
`ValueError`. -/
def parseFloat (cs : List Char) : Except PyExc ℚ :=
  let sgn : ℚ := match cs with
    | '-' :: _ => -1
    | _ => 1
  let t : List Char := match cs with
    | '-' :: t => t
    | '+' :: t => t
    | t => t
  let ip := t.takeWhile (fun c => c ≠ '.')
  match t.dropWhile (fun c => c ≠ '.') with
  | [] =>
    match digitsToNat ip with
    | some a => if ip.isEmpty then .error .valueError else .ok (sgn * a)
    | none => .error .valueError
  | '.' :: fp =>
    match digitsToNat ip, digitsToNat fp with
    | some a, some b =>
      if ip.isEmpty ∧ fp.isEmpty then .error .valueError
      else .ok (sgn * ((a : ℚ) + (b : ℚ) / 10 ^ fp.length))
    | _, _ => .error .valueError
  | _ => .error .valueError

/-- Models Python `x[-1]`: the last element of a list (or character of a
string); `IndexError` when empty, `KeyError` on a dict without key `-1`,
`TypeError` on other JSON values. -/
def pyIndexLast (j : Json) : Except PyExc Json :=
  match j with
  | .arr es =>
    match es.getLast? with
    | some x => .ok x
    | none => .error .indexError
  | .str s =>
    match s.data.getLast? with
    | some c => .ok (.str (String.mk [c]))
    | none => .error .indexError
  | .obj _ => .error .keyError
  | _ => .error .typeError

/-- Models Python `x[key]` for a string key: dict lookup raising
`KeyError` when the key is absent, `TypeError` on non-dict values. -/
def pyGetItem (key : String) (j : Json) : Except PyExc Json :=
  match j with
  | .obj fields =>
    match fields.lookup key with
    | some v => .ok v
    | none => .error .keyError
  | _ => .error .typeError

/-- Models Python `float(x)` on a JSON value: numbers pass through,
strings are parsed as decimal literals, booleans coerce to 1/0, and
everything else raises `TypeError`. -/
def pyFloat (j : Json) : Except PyExc ℚ :=
  match j with
  | .num q => .ok q
  | .str s => parseFloat s.data
  | .boolean b => .ok (if b then 1 else 0)
  | _ => .error .typeError

/-- The expression `json.loads(response.text)[-1]['valor']` fed to
`float`, on an already decoded JSON value. -/
def lastValor (j : Json) : Except PyExc ℚ :=
  match pyIndexLast j with
  | .error e => .error e
  | .ok last =>
    match pyGetItem "valor" last with
    | .error e => .error e
    | .ok v => pyFloat v

/-- `extrair_taxa_cdi` from `analise.py`. `requests.get` and
`raise_for_status` run inside `try`: an `HTTPError` (raised by
`raise_for_status` exactly when the status code is 4xx/5xx) is caught
and the function returns `None`; any other exception from the request
is re-raised. On success the `else` branch parses the body, takes the
last record's `valor` field and returns it as a float; exceptions there
are not guarded and propagate. -/
def extrair_taxa_cdi (fetch : FetchOutcome) : Except PyExc (Option ℚ) :=
  match fetch with
  | .failure => .error .connectionError
  | .response status body =>
    if 400 ≤ status ∧ status < 600 then
      .ok none
    else
      match body with
      | .malformed => .error .jsonDecodeError
      | .jsonOf j =>
        match lastValor j with
        | .error e => .error e
        | .ok q => .ok (some q)

/-- A wall-clock timestamp, as obtained from `datetime.now()`. -/
structure DateTime where
  year : Nat
  month : Nat
  day : Nat
  hour : Nat
  minute : Nat
  second : Nat

/-- The decimal digit character for `d < 10`. -/
def digitChar (d : Nat) : Char := Char.ofNat (48 + d)

/-- Decimal digit characters of a natural number, most significant
first (the character `0` for zero). -/
def natChars (n : Nat) : List Char :=
  if n = 0 then ['0'] else (Nat.digits 10 n).reverse.map digitChar

/-- Left-pads a character run with `0` up to width `k`. -/
def padZeros (k : Nat) (cs : List Char) : List Char :=
  List.replicate (k - cs.length) '0' ++ cs

/-- A number zero-padded to two digits, as `strftime` `%m`/`%d`/`%H`/`%M`/`%S`. -/
def pad2 (n : Nat) : List Char := padZeros 2 (natChars n)

/-- A year zero-padded to four digits, as `strftime` `%Y`. -/
def pad4 (n : Nat) : List Char := padZeros 4 (natChars n)

/-- `datetime.strftime(data_e_hora, '%Y/%m/%d')`. -/
def strftimeData (dt : DateTime) : List Char :=
  pad4 dt.year ++ '/' :: pad2 dt.month ++ '/' :: pad2 dt.day

/-- `datetime.strftime(data_e_hora, '%H:%M:%S')`. -/
def strftimeHora (dt : DateTime) : List Char :=
  pad2 dt.hour ++ ':' :: pad2 dt.minute ++ ':' :: pad2 dt.second

/-- Successive decimal digits of the fractional value `x`, most
significant first, `k` of them. -/
def fracDigits : Nat → ℚ → List Nat
  | 0, _ => []
  | k + 1, x => Nat.floor (x * 10) :: fracDigits k (x * 10 - Nat.floor (x * 10))

/-- Drops trailing zero digits. -/
def trimZeros (ds : List Nat) : List Nat :=
  (ds.reverse.dropWhile (fun d => d = 0)).reverse

/-- Models Python `str` on a float (as used by the f-string
`f'{taxa}'`): an optional minus sign, the integer part, a dot, and the
fractional digits (truncated at 17 decimal places, trailing zeros
trimmed, at least one digit kept). -/
def floatStr (q : ℚ) : List Char :=
  let sgn : List Char := if q < 0 then ['-'] else []
  let a : ℚ := |q|
  let ds := trimZeros (fracDigits 17 (a - Nat.floor a))
  let frac := if ds.isEmpty then ['0'] else ds.map digitChar
  sgn ++ natChars (Nat.floor a) ++ '.' :: frac

/-- The header line `'data,hora,taxa'` written on file creation. -/
def headerLine : List Char :=
  ['d', 'a', 't', 'a', ',', 'h', 'o', 'r', 'a', ',', 't', 'a', 'x', 'a']

/-- The rate written for one sample: `taxa = taxa_base + (random() - 0.5)`. -/
def taxaOf (taxa_base r : ℚ) : ℚ := taxa_base + (r - 1 / 2)

/-- One CSV line `f'{data},{hora},{taxa}\n'` (without the implicit
trailing newline), where `dt` is the `datetime.now()` observation and
`r` the `random()` draw of the iteration. -/
def sampleLine (taxa_base : ℚ) (dt : DateTime) (r : ℚ) : List Char :=
  strftimeData dt ++ ',' :: strftimeHora dt ++ ',' :: floatStr (taxaOf taxa_base r)

/-- The `for _ in range(num_registros)` loop of `coletar_dados`:
iteration `i` reads `obs i = (datetime.now(), random())` and appends
one sample line to the file's lines. -/
def coletarLoop (taxa_base : ℚ) (obs : Nat → DateTime × ℚ) :
    Nat → Nat → List (List Char) → List (List Char)
  | 0, _, lines => lines
  | n + 1, i, lines =>
    coletarLoop taxa_base obs n (i + 1)
      (lines ++ [sampleLine taxa_base (obs i).1 (obs i).2])

/-- `coletar_dados` from `analise.py`: when `./taxa-cdi.csv` does not
exist it is created with the header line; then `num_registros`
iterations each append one sample line. `obs` is the stream of
`(datetime.now(), random())` observations, one pair per iteration;
the `time.sleep(1)` pause has no effect on the file contents. -/
def coletar_dados (taxa_base : ℚ) (num_registros : Nat)
    (obs : Nat → DateTime × ℚ) (file : Option (List (List Char))) :
    List (List Char) :=
  let start := match file with
    | none => [headerLine]
    | some lines => lines
  coletarLoop taxa_base obs num_registros 0 start

/-- `gerar_grafico` from `analise.py`. The pandas/seaborn pipeline is
modelled as: `pd.read_csv` raises `FileNotFoundError` when the series
file is absent, and otherwise reads the whole file, the first line
being the header; the rendered chart artifact is identified with the
data rows it plots (the whole file after the header); `savefig`
persists it under `nome_arquivo + ".png"`. The returned pair is
(image file name, chart artifact written there). -/
def gerar_grafico (nome_arquivo : String) (file : Option (List (List Char))) :
    Except PyExc (String × List (List Char)) :=
  match file with
  | none => .error .fileNotFoundError
  | some lines => .ok (nome_arquivo ++ ".png", lines.drop 1)

/-- The inputs of one run of the script: the command line, the HTTP
outcome, the observation stream of the generation loop, the series
file, and the image files in the working directory (a map from file
name to chart contents). -/
structure World where
  argv : List String
  fetch : FetchOutcome
  obs : Nat → DateTime × ℚ
  series : Option (List (List Char))
  images : String → Option (List (List Char))

/-- The observable outcome of a normally returning run: the messages
`main` itself printed, the series file, and the image files. -/
structure RunResult where
  printed : List String
  series : Option (List (List Char))
  images : String → Option (List (List Char))

/-- `savefig` overwrites the image file of that name. -/
def saveImage (images : String → Option (List (List Char)))
    (fname : String) (chart : List (List Char)) :
    String → Option (List (List Char)) :=
  fun n => if n = fname then some chart else images n

/-- `main` from `analise.py`: usage check on `argv`, fetch, early exit
on a `None` rate, then `coletar_dados(taxa_base=taxa_cdi,
num_registros=10)` followed by `gerar_grafico(nome_grafico)`. A raised
exception is the error side; a normal return carries the final state. -/
def main (w : World) : Except PyExc RunResult :=
  if w.argv.length < 2 then
    .ok ⟨["Uso: python analise.py <nome-do-grafico>"], w.series, w.images⟩
  else
    match extrair_taxa_cdi w.fetch with
    | .error e => .error e
    | .ok none => .ok ⟨["Não foi possível obter a taxa CDI."], w.series, w.images⟩
    | .ok (some taxa_cdi) =>
      let series2 := coletar_dados taxa_cdi 10 w.obs w.series
      match gerar_grafico (w.argv.getD 1 "") (some series2) with
      | .error e => .error e
      | .ok (fname, chart) =>
        .ok ⟨["Análise concluída com sucesso!"], some series2,
          saveImage w.images fname chart⟩

/-- A decimal digit character of the model. -/
def isDigitC (c : Char) : Prop := ∃ d, d < 10 ∧ c = digitChar d

/-- A date field shaped `YYYY/MM/DD`: four digits, a slash, two digits,
a slash, two digits. -/
def dateShaped (cs : List Char) : Prop :=
  ∃ y m d, (∀ c ∈ y, isDigitC c) ∧ y.length = 4 ∧
    (∀ c ∈ m, isDigitC c) ∧ m.length = 2 ∧
    (∀ c ∈ d, isDigitC c) ∧ d.length = 2 ∧
    cs = y ++ '/' :: m ++ '/' :: d

/-- A time field shaped `HH:MM:SS`. -/
def timeShaped (cs : List Char) : Prop :=
  ∃ h mi s, (∀ c ∈ h, isDigitC c) ∧ h.length = 2 ∧
    (∀ c ∈ mi, isDigitC c) ∧ mi.length = 2 ∧
    (∀ c ∈ s, isDigitC c) ∧ s.length = 2 ∧
    cs = h ++ ':' :: mi ++ ':' :: s

/-- A rate field shaped as a decimal number with the `.` separator: an
optional minus sign, then digits, a dot, and digits. -/
def decimalShaped (cs : List Char) : Prop :=
  ∃ sgn ip fp, (sgn = [] ∨ sgn = ['-']) ∧
    (∀ c ∈ ip, isDigitC c) ∧ ip ≠ [] ∧
    (∀ c ∈ fp, isDigitC c) ∧ fp ≠ [] ∧
    cs = sgn ++ ip ++ '.' :: fp

/-- A timestamp `datetime.now()` can deliver: the field ranges of a
Python `datetime`. -/
def ValidDT (dt : DateTime) : Prop :=
  1 ≤ dt.year ∧ dt.year ≤ 9999 ∧ 1 ≤ dt.month ∧ dt.month ≤ 12 ∧
    1 ≤ dt.day ∧ dt.day ≤ 31 ∧ dt.hour ≤ 23 ∧ dt.minute ≤ 59 ∧ dt.second ≤ 59

theorem digitChar_toNat {d : Nat} (h : d < 10) : (digitChar d).toNat = 48 + d := by
  interval_cases d <;> rfl

theorem isDigitC_toNat {c : Char} (h : isDigitC c) :
    48 ≤ c.toNat ∧ c.toNat ≤ 57 := by
  obtain ⟨d, hd, rfl⟩ := h
  rw [digitChar_toNat hd]
  omega

theorem isDigitC_ne {c c2 : Char} (h : isDigitC c)
    (h2 : c2.toNat < 48 ∨ 57 < c2.toNat) : c ≠ c2 := by
  intro he
  obtain ⟨hl, hr⟩ := isDigitC_toNat h
  subst he
  omega

theorem natChars_digits (n : Nat) : ∀ c ∈ natChars n, isDigitC c := by
  intro c hc
  by_cases h : n = 0
  · simp [natChars, h] at hc
    exact ⟨0, by norm_num, hc⟩
  · simp [natChars, h] at hc
    obtain ⟨d, hd, rfl⟩ := hc
    exact ⟨d, Nat.digits_lt_base (by norm_num) hd, rfl⟩

theorem natChars_ne_nil (n : Nat) : natChars n ≠ [] := by
  by_cases h : n = 0
  · simp [natChars, h]
  · simp [natChars, h, Nat.digits_ne_nil_iff_ne_zero]

theorem natChars_len_le {n k : Nat} (hk : 1 ≤ k) (h : n < 10 ^ k) :
    (natChars n).length ≤ k := by
  by_cases h0 : n = 0
  · simp [natChars, h0]
    omega
  · simp [natChars, h0]
    have hlen := Nat.digits_len 10 n (by norm_num) h0
    have hlog : Nat.log 10 n < k := Nat.log_lt_of_lt_pow h0 h
    omega

theorem padZeros_length {k : Nat} {cs : List Char} (h : cs.length ≤ k) :
    (padZeros k cs).length = k := by
  simp [padZeros]
  omega

theorem padZeros_digits {k : Nat} {cs : List Char} (h : ∀ c ∈ cs, isDigitC c) :
    ∀ c ∈ padZeros k cs, isDigitC c := by
  intro c hc
  rcases List.mem_append.mp hc with h1 | h1
  · rw [List.eq_of_mem_replicate h1]
    exact ⟨0, by norm_num, rfl⟩
  · exact h c h1

theorem padZeros_head_digit {k : Nat} {cs : List Char} (hne : cs ≠ [])
    (hd : ∀ c ∈ cs, isDigitC c) :
    ∃ c t, padZeros k cs = c :: t ∧ isDigitC c := by
  rcases hk : k - cs.length with _ | m
  · cases cs with
    | nil => exact absurd rfl hne
    | cons c t =>
      refine ⟨c, t, ?_, hd c (by simp)⟩
      have hk2 : k - (t.length + 1) = 0 := by simpa using hk
      simp [padZeros, hk2]
  · refine ⟨'0', List.replicate m '0' ++ cs, ?_, 0, by norm_num, rfl⟩
    simp [padZeros, hk, List.replicate_succ]

theorem pad2_length {n : Nat} (h : n ≤ 99) : (pad2 n).length = 2 := by
  have h2 : (10 : Nat) ^ 2 = 100 := by norm_num
  exact padZeros_length (natChars_len_le (by norm_num) (by omega))

theorem pad4_length {n : Nat} (h : n ≤ 9999) : (pad4 n).length = 4 := by
  have h4 : (10 : Nat) ^ 4 = 10000 := by norm_num
  exact padZeros_length (natChars_len_le (by norm_num) (by omega))

theorem strftimeData_shaped {dt : DateTime} (h : ValidDT dt) :
    dateShaped (strftimeData dt) := by
  obtain ⟨_, hy, _, hm, _, hd, _⟩ := h
  exact ⟨pad4 dt.year, pad2 dt.month, pad2 dt.day,
    padZeros_digits (natChars_digits _), pad4_length hy,
    padZeros_digits (natChars_digits _), pad2_length (by omega),
    padZeros_digits (natChars_digits _), pad2_length (by omega), rfl⟩

theorem strftimeHora_shaped {dt : DateTime} (h : ValidDT dt) :
    timeShaped (strftimeHora dt) := by
  obtain ⟨_, _, _, _, _, _, hh, hmi, hs⟩ := h
  exact ⟨pad2 dt.hour, pad2 dt.minute, pad2 dt.second,
    padZeros_digits (natChars_digits _), pad2_length (by omega),
    padZeros_digits (natChars_digits _), pad2_length (by omega),
    padZeros_digits (natChars_digits _), pad2_length (by omega), rfl⟩

theorem fracDigits_lt (k : Nat) :
    ∀ x : ℚ, 0 ≤ x → x < 1 → ∀ d ∈ fracDigits k x, d < 10 := by
  induction k with
  | zero =>
    intro x _ _ d hd
    simp [fracDigits] at hd
  | succ m ih =>
    intro x hx0 hx1 d hd
    have h0 : (0 : ℚ) ≤ x * 10 := by positivity
    rw [fracDigits] at hd
    rcases List.mem_cons.mp hd with rfl | hmem
    · have h10 : x * 10 < (10 : ℚ) := by linarith
      exact (Nat.floor_lt h0).mpr (by exact_mod_cast h10)
    · refine ih (x * 10 - Nat.floor (x * 10)) ?_ ?_ d hmem
      · have := Nat.floor_le h0
        linarith
      · have := Nat.lt_floor_add_one (x * 10)
        linarith

theorem trimZeros_mem {ds : List Nat} {d : Nat} (h : d ∈ trimZeros ds) :
    d ∈ ds := by
  unfold trimZeros at h
  have h2 := List.mem_reverse.mp h
  have h3 := (List.dropWhile_sublist (fun x => x = 0) (l := ds.reverse)).subset h2
  exact List.mem_reverse.mp h3

theorem floatStr_shaped (q : ℚ) : decimalShaped (floatStr q) := by
  have ha : (0 : ℚ) ≤ |q| := abs_nonneg q
  have h0 : (0 : ℚ) ≤ |q| - Nat.floor |q| := by
    have := Nat.floor_le ha
    linarith
  have h1 : |q| - Nat.floor |q| < 1 := by
    have := Nat.lt_floor_add_one (|q| : ℚ)
    linarith
  refine ⟨if q < 0 then ['-'] else [], natChars (Nat.floor |q|),
    if (trimZeros (fracDigits 17 (|q| - Nat.floor |q|))).isEmpty then ['0']
    else (trimZeros (fracDigits 17 (|q| - Nat.floor |q|))).map digitChar,
    ?_, natChars_digits _, natChars_ne_nil _, ?_, ?_, rfl⟩
  · split <;> simp
  · split
    · intro c hc
      simp at hc
      exact ⟨0, by norm_num, hc⟩
    · intro c hc
      obtain ⟨d, hd, rfl⟩ := List.mem_map.mp hc
      exact ⟨d, fracDigits_lt 17 _ h0 h1 d (trimZeros_mem hd), rfl⟩
  · split
    · simp
    · rename_i hne
      simp only [List.isEmpty_eq_true] at hne
      simp [hne]

/-- Unrolling the generation loop: starting at index `i`, the loop
appends one sample line per iteration. -/
theorem coletarLoop_eq (tb : ℚ) (obs : Nat → DateTime × ℚ) :
    ∀ (n i : Nat) (lines : List (List Char)),
      coletarLoop tb obs n i lines =
        lines ++ (List.range' i n).map (fun k => sampleLine tb (obs k).1 (obs k).2) := by
  intro n
  induction n with
  | zero =>
    intro i lines
    simp [coletarLoop]
  | succ m ih =>
    intro i lines
    rw [coletarLoop, ih, List.range'_succ]
    simp

/-- On an absent file, a run writes the header and then its samples. -/
theorem coletar_dados_none_eq (tb : ℚ) (n : Nat) (obs : Nat → DateTime × ℚ) :
    coletar_dados tb n obs none =
      headerLine ::
        (List.range n).map (fun k => sampleLine tb (obs k).1 (obs k).2) := by
  simp [coletar_dados, coletarLoop_eq, List.range_eq_range']

/-- On an existing file, a run appends its samples after the existing
lines, which it never modifies. -/
theorem coletar_dados_some_eq (tb : ℚ) (n : Nat) (obs : Nat → DateTime × ℚ)
    (lines : List (List Char)) :
    coletar_dados tb n obs (some lines) =
      lines ++ (List.range n).map (fun k => sampleLine tb (obs k).1 (obs k).2) := by
  simp [coletar_dados, coletarLoop_eq, List.range_eq_range']

/-- A sample line never equals the header line: its first character is
a digit of the zero-padded year, while the header starts with `d`. -/
theorem sampleLine_ne_header (tb : ℚ) (dt : DateTime) (r : ℚ) :
    sampleLine tb dt r ≠ headerLine := by
  obtain ⟨c, t, hpad, hdig⟩ :=
    padZeros_head_digit (k := 4) (natChars_ne_nil dt.year) (natChars_digits dt.year)
  intro he
  have h1 : (sampleLine tb dt r).head? = some c := by
    rw [sampleLine, strftimeData, pad4, hpad]
    rfl
  rw [he] at h1
  have h2 : c = 'd' := by
    simpa [headerLine] using h1.symm
  exact isDigitC_ne hdig (Or.inr (by decide)) h2

theorem dateShaped_no_comma {cs : List Char} (h : dateShaped cs) : ',' ∉ cs := by
  obtain ⟨y, m, d, hy, _, hm, _, hd, _, rfl⟩ := h
  intro hmem
  rcases List.mem_append.mp hmem with h1 | h1
  · rcases List.mem_append.mp h1 with h2 | h2
    · exact isDigitC_ne (hy _ h2) (Or.inl (by decide)) rfl
    · rcases List.mem_cons.mp h2 with h3 | h3
      · exact absurd h3 (by decide)
      · exact isDigitC_ne (hm _ h3) (Or.inl (by decide)) rfl
  · rcases List.mem_cons.mp h1 with h3 | h3
    · exact absurd h3 (by decide)
    · exact isDigitC_ne (hd _ h3) (Or.inl (by decide)) rfl

theorem timeShaped_no_comma {cs : List Char} (h : timeShaped cs) : ',' ∉ cs := by
  obtain ⟨hh, mi, s, h1, _, h2, _, h3, _, rfl⟩ := h
  intro hmem
  rcases List.mem_append.mp hmem with h4 | h4
  · rcases List.mem_append.mp h4 with h5 | h5
    · exact isDigitC_ne (h1 _ h5) (Or.inl (by decide)) rfl
    · rcases List.mem_cons.mp h5 with h6 | h6
      · exact absurd h6 (by decide)
      · exact isDigitC_ne (h2 _ h6) (Or.inl (by decide)) rfl
  · rcases List.mem_cons.mp h4 with h6 | h6
    · exact absurd h6 (by decide)
    · exact isDigitC_ne (h3 _ h6) (Or.inl (by decide)) rfl

theorem decimalShaped_no_comma {cs : List Char} (h : decimalShaped cs) :
    ',' ∉ cs := by
  obtain ⟨sgn, ip, fp, hsgn, hip, _, hfp, _, rfl⟩ := h
  intro hmem
  rcases List.mem_append.mp hmem with h1 | h1
  · rcases List.mem_append.mp h1 with h2 | h2
    · rcases hsgn with rfl | rfl
      · simp at h2
      · rcases List.mem_cons.mp h2 with h3 | h3
        · exact absurd h3 (by decide)
        · simp at h3
    · exact isDigitC_ne (hip _ h2) (Or.inl (by decide)) rfl
  · rcases List.mem_cons.mp h1 with h3 | h3
    · exact absurd h3 (by decide)
    · exact isDigitC_ne (hfp _ h3) (Or.inl (by decide)) rfl

/-- Sample lines never contribute a header line. -/
theorem sampleMap_count_header (tb : ℚ) (obs : Nat → DateTime × ℚ) (n : Nat) :
    ((List.range n).map (fun k => sampleLine tb (obs k).1 (obs k).2)).count
      headerLine = 0 := by
  refine List.count_eq_zero.mpr ?_
  intro hmem
  obtain ⟨k, _, hk⟩ := List.mem_map.mp hmem
  exact sampleLine_ne_header tb (obs k).1 (obs k).2 hk

/-- C4: every sample produced by `coletar_dados` is written with rate
`taxa_base + (random() - 0.5)`; when each `random()` draw lies in
`[0, 1)`, every written rate lies in `[R - 0.5, R + 0.5)`. -/
theorem coletar_dados_rate_bounds
    (taxa_base : ℚ) (n : Nat) (obs : Nat → DateTime × ℚ)
    (file : Option (List (List Char)))
    (hr : ∀ i, i < n → 0 ≤ (obs i).2 ∧ (obs i).2 < 1) :
    (coletar_dados taxa_base n obs file =
      (match file with
        | none => [headerLine]
        | some lines => lines) ++
        (List.range n).map (fun k => sampleLine taxa_base (obs k).1 (obs k).2)) ∧
    (∀ k, k < n →
      taxaOf taxa_base (obs k).2 = taxa_base + ((obs k).2 - 1 / 2) ∧
      taxa_base - 1 / 2 ≤ taxaOf taxa_base (obs k).2 ∧
      taxaOf taxa_base (obs k).2 < taxa_base + 1 / 2) := by
  constructor
  · cases file with
    | none => simpa using coletar_dados_none_eq taxa_base n obs
    | some lines => simpa using coletar_dados_some_eq taxa_base n obs lines
  · intro k hk
    obtain ⟨h0, h1⟩ := hr k hk
    refine ⟨rfl, ?_, ?_⟩
    · rw [taxaOf]
      linarith
    · rw [taxaOf]
      linarith

/-- Witness for C4: one sample at base rate 10 with draw 1/4. -/
theorem coletar_dados_rate_bounds_witness :
    10 - 1 / 2 ≤ taxaOf 10 (1 / 4) ∧ taxaOf 10 (1 / 4) < 10 + 1 / 2 := by
  have h :=
    (coletar_dados_rate_bounds 10 1
        (fun _ => (⟨2024, 5, 17, 8, 30, 0⟩, 1 / 4)) none
        (fun i _ => by norm_num)).2 0 (by norm_num)
  exact ⟨h.2.1, h.2.2⟩

/-- C5: the series file is append-only and carries exactly one header:
the header is written only when the file does not exist, existing lines
are kept as a prefix, and two consecutive runs starting from an absent
file yield `1 + (N1 + N2)` lines of which exactly one is the header. -/
theorem coletar_dados_append_only
    (tb1 tb2 : ℚ) (n1 n2 : Nat) (obs1 obs2 : Nat → DateTime × ℚ)
    (lines : List (List Char)) :
    (coletar_dados tb1 n1 obs1 none =
      headerLine ::
        (List.range n1).map (fun k => sampleLine tb1 (obs1 k).1 (obs1 k).2)) ∧
    (coletar_dados tb1 n1 obs1 (some lines) =
      lines ++
        (List.range n1).map (fun k => sampleLine tb1 (obs1 k).1 (obs1 k).2)) ∧
    (∃ t, coletar_dados tb2 n2 obs2 (some (coletar_dados tb1 n1 obs1 none)) =
      coletar_dados tb1 n1 obs1 none ++ t) ∧
    ((coletar_dados tb2 n2 obs2 (some (coletar_dados tb1 n1 obs1 none))).length =
      1 + (n1 + n2)) ∧
    ((coletar_dados tb2 n2 obs2 (some (coletar_dados tb1 n1 obs1 none))).count
      headerLine = 1) := by
  refine ⟨coletar_dados_none_eq tb1 n1 obs1, coletar_dados_some_eq tb1 n1 obs1 lines,
    ⟨_, coletar_dados_some_eq tb2 n2 obs2 _⟩, ?_, ?_⟩
  · rw [coletar_dados_some_eq, coletar_dados_none_eq]
    simp
    omega
  · rw [coletar_dados_some_eq, coletar_dados_none_eq]
    rw [List.cons_append, List.count_cons_self, List.count_append]
    rw [sampleMap_count_header, sampleMap_count_header]

/-- C6: a run appends exactly `num_registros` lines (`main` passes 10);
each appended line is the comma-separated join of exactly three
comma-free fields: a `YYYY/MM/DD` date, an `HH:MM:SS` time and a
decimal rate with the `.` separator; the header written on creation is
the literal `data,hora,taxa`. -/
theorem coletar_dados_line_format
    (tb : ℚ) (n : Nat) (obs : Nat → DateTime × ℚ) (lines : List (List Char))
    (hdt : ∀ i, i < n → ValidDT (obs i).1) :
    ((coletar_dados tb n obs (some lines)).length = lines.length + n) ∧
    (coletar_dados tb n obs (some lines) =
      lines ++ (List.range n).map (fun k => sampleLine tb (obs k).1 (obs k).2)) ∧
    (∀ k, k < n →
      sampleLine tb (obs k).1 (obs k).2 =
        strftimeData (obs k).1 ++ ',' :: strftimeHora (obs k).1 ++
          ',' :: floatStr (taxaOf tb (obs k).2) ∧
      dateShaped (strftimeData (obs k).1) ∧
      ',' ∉ strftimeData (obs k).1 ∧
      timeShaped (strftimeHora (obs k).1) ∧
      ',' ∉ strftimeHora (obs k).1 ∧
      decimalShaped (floatStr (taxaOf tb (obs k).2)) ∧
      ',' ∉ floatStr (taxaOf tb (obs k).2)) ∧
    (String.mk headerLine = "data,hora,taxa") ∧
    (∀ w : World, ∀ taxa : ℚ, extrair_taxa_cdi w.fetch = .ok (some taxa) →
      2 ≤ w.argv.length →
      ∃ r : RunResult, main w = .ok r ∧
        r.series = some (coletar_dados taxa 10 w.obs w.series)) := by
  refine ⟨?_, coletar_dados_some_eq tb n obs lines, ?_, rfl, ?_⟩
  · rw [coletar_dados_some_eq]
    simp
  · intro k hk
    have hv := hdt k hk
    refine ⟨rfl, strftimeData_shaped hv, dateShaped_no_comma (strftimeData_shaped hv),
      strftimeHora_shaped hv, timeShaped_no_comma (strftimeHora_shaped hv),
      floatStr_shaped _, decimalShaped_no_comma (floatStr_shaped _)⟩
  · intro w taxa hfetch hargv
    have hlen : ¬(w.argv.length < 2) := by omega
    refine ⟨⟨["Análise concluída com sucesso!"],
      some (coletar_dados taxa 10 w.obs w.series),
      saveImage w.images (w.argv.getD 1 "" ++ ".png")
        ((coletar_dados taxa 10 w.obs w.series).drop 1)⟩, ?_, rfl⟩
    simp [main, hlen, hfetch, gerar_grafico]

/-- Witness for C6: one sample appended to an existing empty file. -/
theorem coletar_dados_line_format_witness :
    (coletar_dados 10 1 (fun _ => (⟨2024, 5, 17, 8, 30, 0⟩, 1 / 4))
        (some [])).length = ([] : List (List Char)).length + 1 :=
  (coletar_dados_line_format 10 1 _ [] (fun i _ => by simp [ValidDT])).1

/-- On any JSON value that is not an array, the unguarded expression
`json.loads(response.text)[-1]['valor']` raises some exception. -/
theorem lastValor_nonarr {j : Json} (h : ∀ es, j ≠ .arr es) :
    ∃ e, lastValor j = .error e := by
  cases j with
  | null => exact ⟨_, rfl⟩
  | boolean b => exact ⟨_, rfl⟩
  | num q => exact ⟨_, rfl⟩
  | str s =>
    cases hc : s.data.getLast? with
    | none => exact ⟨.indexError, by simp [lastValor, pyIndexLast, hc]⟩
    | some c => exact ⟨.typeError, by simp [lastValor, pyIndexLast, hc, pyGetItem]⟩
  | arr es => exact absurd rfl (h es)
  | obj fields => exact ⟨_, rfl⟩

/-- C1: for every HTTP response with a non-error status whose body is a
valid JSON array with at least one record, `extrair_taxa_cdi` returns
the float obtained by numerically parsing the `valor` field of the last
element of the array. -/
theorem extrair_taxa_cdi_returns_last_valor
    (status : Nat) (es : List Json) (last v : Json) (q : ℚ)
    (hstatus : ¬(400 ≤ status ∧ status < 600))
    (hlast : es.getLast? = some last)
    (hvalor : pyGetItem "valor" last = .ok v)
    (hfloat : pyFloat v = .ok q) :
    extrair_taxa_cdi (.response status (.jsonOf (.arr es))) = .ok (some q) := by
  simp [extrair_taxa_cdi, hstatus, lastValor, pyIndexLast, hlast, hvalor, hfloat]

/-- Witness for C1: a 200 response carrying `[{"valor": "11.65"}]`
yields `11.65`. -/
theorem extrair_taxa_cdi_returns_last_valor_witness :
    extrair_taxa_cdi
        (.response 200 (.jsonOf (.arr [.obj [("valor", .str "11.65")]]))) =
      .ok (some (1165 / 100)) :=
  extrair_taxa_cdi_returns_last_valor 200 [.obj [("valor", .str "11.65")]]
    (.obj [("valor", .str "11.65")]) (.str "11.65") (1165 / 100)
    (by decide) rfl rfl
    (by simp [pyFloat, parseFloat, digitsToNat, digitVal]; norm_num)

/-- C2: for every HTTP response with a 4xx/5xx status, whatever the
body, `extrair_taxa_cdi` returns `None` without raising, and a run of
`main` reaching the fetcher then stops normally with a message, leaving
files untouched. -/
theorem extrair_taxa_cdi_error_status_none
    (status : Nat) (body : HttpBody)
    (h1 : 400 ≤ status) (h2 : status < 600) :
    extrair_taxa_cdi (.response status body) = .ok none ∧
    ∀ w : World, w.fetch = .response status body → 2 ≤ w.argv.length →
      main w = .ok ⟨["Não foi possível obter a taxa CDI."], w.series, w.images⟩ := by
  have hext : extrair_taxa_cdi (.response status body) = .ok none := by
    simp [extrair_taxa_cdi, h1, h2]
  refine ⟨hext, ?_⟩
  intro w hw hargv
  have hlen : ¬(w.argv.length < 2) := by omega
  simp [main, hlen, hw, hext]

/-- Witness for C2: a 404 response with a non-JSON body yields `None`. -/
theorem extrair_taxa_cdi_error_status_none_witness :
    extrair_taxa_cdi (.response 404 .malformed) = .ok none :=
  (extrair_taxa_cdi_error_status_none 404 .malformed (by decide) (by decide)).1

/-- C3: every failure other than an HTTP error status propagates as an
exception: a raised network request, a body that is not valid JSON, a
decoded body that is not a list, and a last element whose `valor` field
is missing or not numerically parsable. -/
theorem extrair_taxa_cdi_propagates :
    (extrair_taxa_cdi .failure = .error .connectionError) ∧
    (∀ s, ¬(400 ≤ s ∧ s < 600) →
      extrair_taxa_cdi (.response s .malformed) = .error .jsonDecodeError) ∧
    (∀ s j, ¬(400 ≤ s ∧ s < 600) → (∀ es, j ≠ .arr es) →
      ∃ e, extrair_taxa_cdi (.response s (.jsonOf j)) = .error e) ∧
    (∀ s es last e, ¬(400 ≤ s ∧ s < 600) → es.getLast? = some last →
      pyGetItem "valor" last = .error e →
      extrair_taxa_cdi (.response s (.jsonOf (.arr es))) = .error e) ∧
    (∀ s es last v e, ¬(400 ≤ s ∧ s < 600) → es.getLast? = some last →
      pyGetItem "valor" last = .ok v → pyFloat v = .error e →
      extrair_taxa_cdi (.response s (.jsonOf (.arr es))) = .error e) := by
  refine ⟨rfl, ?_, ?_, ?_, ?_⟩
  · intro s hs
    simp [extrair_taxa_cdi, hs]
  · intro s j hs hj
    obtain ⟨e, he⟩ := lastValor_nonarr hj
    exact ⟨e, by simp [extrair_taxa_cdi, hs, he]⟩
  · intro s es last e hs hlast hitem
    simp [extrair_taxa_cdi, hs, lastValor, pyIndexLast, hlast, hitem]
  · intro s es last v e hs hlast hitem hfl
    simp [extrair_taxa_cdi, hs, lastValor, pyIndexLast, hlast, hitem, hfl]

/-- Witness for C3: concrete malformed bodies, a non-list body, and a
record with a non-numeric `valor` all raise on a 200 response. -/
theorem extrair_taxa_cdi_propagates_witness :
    extrair_taxa_cdi (.response 200 .malformed) = .error .jsonDecodeError ∧
    (∃ e, extrair_taxa_cdi (.response 200 (.jsonOf (.num 5))) = .error e) ∧
    extrair_taxa_cdi (.response 200 (.jsonOf (.arr [.obj []]))) =
      .error .keyError ∧
    extrair_taxa_cdi (.response 200 (.jsonOf (.arr [.obj [("valor", .null)]]))) =
      .error .typeError :=
  ⟨extrair_taxa_cdi_propagates.2.1 200 (by decide),
   extrair_taxa_cdi_propagates.2.2.1 200 (.num 5) (by decide)
     (fun es h => Json.noConfusion h),
   extrair_taxa_cdi_propagates.2.2.2.1 200 [.obj []] (.obj []) .keyError
     (by decide) rfl rfl,
   extrair_taxa_cdi_propagates.2.2.2.2 200 [.obj [("valor", .null)]]
     (.obj [("valor", .null)]) .null .typeError (by decide) rfl rfl rfl⟩

/-- C10: a non-error response whose body is the empty JSON array does
not produce the `None` sentinel: indexing the last element raises an
`IndexError` that propagates, because the payload is parsed outside the
guarded `try` block. -/
theorem extrair_taxa_cdi_empty_array_raises
    (status : Nat) (h : ¬(400 ≤ status ∧ status < 600)) :
    extrair_taxa_cdi (.response status (.jsonOf (.arr []))) =
      .error .indexError ∧
    extrair_taxa_cdi (.response status (.jsonOf (.arr []))) ≠ .ok none := by
  have he : extrair_taxa_cdi (.response status (.jsonOf (.arr []))) =
      .error .indexError := by
    simp [extrair_taxa_cdi, h, lastValor, pyIndexLast]
  exact ⟨he, by simp [he]⟩

/-- Witness for C10: a 200 response with body `[]` raises `IndexError`. -/
theorem extrair_taxa_cdi_empty_array_raises_witness :
    extrair_taxa_cdi (.response 200 (.jsonOf (.arr []))) =
      .error .indexError ∧
    extrair_taxa_cdi (.response 200 (.jsonOf (.arr []))) ≠ .ok none :=
  extrair_taxa_cdi_empty_array_raises 200 (by decide)

/-- C7: with no positional argument, `main` prints the usage line and
returns normally; the result does not depend on the fetch outcome and
the series file and image files are untouched. -/
theorem main_no_args_usage (w : World) (h : w.argv.length < 2) :
    main w = .ok ⟨["Uso: python analise.py <nome-do-grafico>"], w.series, w.images⟩ ∧
    ∀ f : FetchOutcome, main {w with fetch := f} = main w := by
  constructor
  · simp [main, h]
  · intro f
    simp [main, h]

/-- Witness for C7: an empty command line on an empty working
directory. -/
theorem main_no_args_usage_witness :
    main ⟨[], .failure, fun _ => (⟨2024, 5, 17, 8, 30, 0⟩, 1 / 4),
        none, fun _ => none⟩ =
      .ok ⟨["Uso: python analise.py <nome-do-grafico>"], none, fun _ => none⟩ :=
  (main_no_args_usage _ (by decide)).1

/-- C8: when the fetcher yields the `None` sentinel, `main` prints a
message and returns normally, with the series file and the image files
exactly as they were. -/
theorem main_no_data_unchanged (w : World) (hargv : 2 ≤ w.argv.length)
    (hfetch : extrair_taxa_cdi w.fetch = .ok none) :
    main w = .ok ⟨["Não foi possível obter a taxa CDI."], w.series, w.images⟩ := by
  have hlen : ¬(w.argv.length < 2) := by omega
  simp [main, hlen, hfetch]

/-- Witness for C8: a 500 response on an empty working directory. -/
theorem main_no_data_unchanged_witness :
    main ⟨["analise.py", "grafico"], .response 500 .malformed,
        fun _ => (⟨2024, 5, 17, 8, 30, 0⟩, 1 / 4), none, fun _ => none⟩ =
      .ok ⟨["Não foi possível obter a taxa CDI."], none, fun _ => none⟩ :=
  main_no_data_unchanged _ (by decide) (by simp [extrair_taxa_cdi])

/-- C9: the renderer reads the entire series file, derives the chart
from all of it, and persists it under exactly the supplied name with
`.png` appended, overwriting any image of that name while leaving every
other image file alone. -/
theorem gerar_grafico_writes_png
    (nome : String) (lines : List (List Char))
    (images : String → Option (List (List Char))) :
    gerar_grafico nome (some lines) = .ok (nome ++ ".png", lines.drop 1) ∧
    saveImage images (nome ++ ".png") (lines.drop 1) (nome ++ ".png") =
      some (lines.drop 1) ∧
    (∀ other : String, other ≠ nome ++ ".png" →
      saveImage images (nome ++ ".png") (lines.drop 1) other = images other) := by
  refine ⟨rfl, ?_, ?_⟩
  · simp [saveImage]
  · intro other hne
    simp [saveImage, hne]

/-- Witness for C9: rendering a header-only series file over a
pre-existing image. -/
theorem gerar_grafico_writes_png_witness :
    gerar_grafico "g" (some [headerLine]) =
      .ok ("g" ++ ".png", [headerLine].drop 1) ∧
    saveImage (fun _ => some [headerLine]) ("g" ++ ".png") ([headerLine].drop 1)
      ("g" ++ ".png") = some ([headerLine].drop 1) ∧
    saveImage (fun _ => some [headerLine]) ("g" ++ ".png") ([headerLine].drop 1)
      "other" = some [headerLine] := by
  obtain ⟨h1, h2, h3⟩ :=
    gerar_grafico_writes_png "g" [headerLine] (fun _ => some [headerLine])
  exact ⟨h1, h2, h3 "other" (by simp)⟩

end Analise
